import Mathlib

/-!
Verification of the tweet-scraping pipeline in `tweet_scrape.py`.

The development shallowly embeds the pieces of the `TweetScraper` class that
carry the interesting behaviour:

* Python `datetime` dates are represented by their proleptic Gregorian
  ordinal (`datetime.toordinal`), exactly the representation CPython uses
  for date arithmetic; `ord2ymd` mirrors CPython `_ord2ymd` and `ymd2ord`
  mirrors CPython `_ymd2ord`.
* `date_rng` and `query_string` are the pure helpers of the class.
* The scroll loop of `scrape_full_page` becomes a step function
  `scrapeStep` on an explicit state (accumulated set, `num_tweets`,
  `break_count`, `num_scrolls`); one DOM sample (a `Batch`) holds the
  element lists returned by the two CSS queries of a loop pass.  Browser
  scroll side effects are reified as emitted `ScrollCmd` values, and raised
  Python exceptions as `StepResult.fail` values.
* The per-day loop of `run_scraper` becomes `dayLoop`, driven by a list of
  `DayOutcome` values (one per loop iteration) describing what the guarded
  block did: returned data, or raised a given exception type.  The
  selenium exception hierarchy is modelled by the predicates
  `isTimeoutException` and `isWebDriverException`; every modelled
  exception type derives from Python `Exception`, so the final generic
  handler of the day loop catches whatever the first two did not.
-/

deriving instance DecidableEq for Except

/-! ## Calendar arithmetic (CPython datetime model) -/

def isLeap (y : Nat) : Bool :=
  (y % 4 == 0 && y % 100 != 0) || (y % 400 == 0)

def daysInMonth (y m : Nat) : Nat :=
  if m == 2 then (if isLeap y then 29 else 28)
  else if m == 4 || m == 6 || m == 9 || m == 11 then 30
  else 31

def daysBeforeYear (y : Nat) : Nat :=
  let p := y - 1
  p * 365 + p / 4 - p / 100 + p / 400

def daysBeforeMonth (y m : Nat) : Nat :=
  (List.range (m - 1)).foldl (fun acc k => acc + daysInMonth y (k + 1)) 0

/-- CPython `_ymd2ord`: proleptic Gregorian ordinal of a calendar date,
with day 1 = 0001-01-01. -/
def ymd2ord (y m d : Nat) : Nat :=
  daysBeforeYear y + daysBeforeMonth y m + d

def findMonthDay (y : Nat) : Nat → Nat → Nat → Nat × Nat × Nat
  | 0, m, n => (y, m, n + 1)
  | fuel + 1, m, n =>
    if n < daysInMonth y m then (y, m, n + 1)
    else findMonthDay y fuel (m + 1) (n - daysInMonth y m)

/-- CPython `_ord2ymd`: calendar date of a proleptic Gregorian ordinal. -/
def ord2ymd (o : Nat) : Nat × Nat × Nat :=
  let n0 := o - 1
  let n400 := n0 / 146097
  let r400 := n0 % 146097
  let n100 := r400 / 36524
  let r100 := r400 % 36524
  let n4 := r100 / 1461
  let r4 := r100 % 1461
  let n1 := r4 / 365
  let r1 := r4 % 365
  let year := n400 * 400 + n100 * 100 + n4 * 4 + n1 + 1
  if n1 == 4 || n100 == 4 then (year - 1, 12, 31)
  else findMonthDay year 12 1 r1

def pad2 (n : Nat) : String :=
  if n < 10 then "0" ++ toString n else toString n

def pad4 (n : Nat) : String :=
  if n < 10 then "000" ++ toString n
  else if n < 100 then "00" ++ toString n
  else if n < 1000 then "0" ++ toString n
  else toString n

/-- Python `d.strftime("%Y-%m-%d")` for a date given by its ordinal. -/
def strftimeDate (o : Nat) : String :=
  let ymd := ord2ymd o
  pad4 ymd.1 ++ "-" ++ pad2 ymd.2.1 ++ "-" ++ pad2 ymd.2.2

/-- `TweetScraper.date_rng`: the list comprehension
`[(start + timedelta(days=i)).strftime("%Y-%m-%d") for i in range(delta.days+1)]`
where `delta = end - start`.  Dates are ordinals; a negative
`delta.days + 1` yields an empty `range`, matching `Int.toNat`. -/
def date_rng (start e : Nat) : List String :=
  let delta : Int := (e : Int) - (start : Int)
  (List.range (delta + 1).toNat).map (fun i => strftimeDate (start + i))

/-! ## Query construction -/

/-- Python `str.lower()`: lower-case every character. -/
def strLower (s : String) : String :=
  ⟨s.data.map Char.toLower⟩

/-- The constructor attributes of the `TweetScraper` class that
`query_string` reads. -/
structure TweetScraper where
  coin_name : String
  coin_abbrv : String
  min_faves : Int
  min_retweets : Int
  min_replies : Int
  page : String
  language : String
deriving DecidableEq

/-- `TweetScraper.query_string`: the f-string URL, assembled left to right. -/
def query_string (self : TweetScraper) (date_since date_until : String) : String :=
  "https://twitter.com/search?q=(" ++ self.coin_name ++
  "%20OR%20" ++ self.coin_abbrv ++ ")" ++
  "%20min_replies%3A" ++ toString self.min_replies ++
  "%20min_faves%3A" ++ toString self.min_faves ++
  "%20min_retweets%3A" ++ toString self.min_retweets ++
  "%20lang%3A" ++ self.language ++
  "%20until%3A" ++ date_until ++
  "%20since%3A" ++ date_since ++
  "&src=typed_query&f=" ++ strLower self.page

/-- Is `pat` an initial segment of `l`? -/
def chPrefix : List Char → List Char → Bool
  | [], _ => true
  | _ :: _, [] => false
  | a :: as, b :: bs => a == b && chPrefix as bs

/-- Does `pat` occur as a contiguous run inside `l`? -/
def chContains (pat : List Char) : List Char → Bool
  | [] => chPrefix pat []
  | c :: rest => chPrefix pat (c :: rest) || chContains pat rest

/-- Substring test on strings. -/
def strContains (hay pat : String) : Bool :=
  chContains pat.data hay.data

/-! ## PageScraper: the scroll loop of `scrape_full_page` -/

/-- A DOM element handle, restricted to the facets the scraper reads:
the `datetime` attribute, the `.text` property and the `.location`
coordinates. -/
structure Elem where
  attr_datetime : String
  text : String
  x : Int
  y : Int
deriving DecidableEq

/-- A browser scroll side effect, reified: either the anchored
`window.scrollTo(x, y)` issued inside `scrape_visible_data`, or the
`window.scrollTo(0, document.body.scrollHeight)` issued on a stalled pass. -/
inductive ScrollCmd
  | anchored (x y : Int)
  | toBottom
deriving DecidableEq

/-- The Python exceptions `scrape_full_page` can raise: `IndexError` from
`web_elems[-1]` on an empty query result, `AssertionError` from the
length invariant, and the bare `Exception` for the scroll budget. -/
inductive ScrapeErr
  | indexError
  | assertError
  | maxScrolls
deriving DecidableEq

/-- `TweetScraper.scrape_visible_data`.  The `driver` plus CSS selector
pair is reified as the list of elements the selector matches.  Returns the
extracted strings and the scroll commands issued, or the raised
exception.  With `scroll = true` the source reads `web_elems[-1].location`,
which raises `IndexError` when the match list is empty. -/
def scrape_visible_data (web_elems : List Elem) (text scroll : Bool) :
    Except ScrapeErr (List String × List ScrollCmd) :=
  let data := if text = false then web_elems.map Elem.attr_datetime
              else web_elems.map Elem.text
  if scroll then
    match web_elems.getLast? with
    | none => .error .indexError
    | some last => .ok (data, [ScrollCmd.anchored last.x last.y])
  else .ok (data, [])

/-- What the two DOM queries of one pass of the `while True` loop see:
the elements matched by the `"a time"` selector and the elements matched
by the tweet-container selector. -/
structure Batch where
  timeElems : List Elem
  tweetElems : List Elem
deriving DecidableEq

/-- The mutable locals of `scrape_full_page` that survive a loop pass. -/
structure ScrapeState where
  full_tweets : Finset (String × String)
  num_tweets : Nat
  break_count : Nat
  num_scrolls : Nat
deriving DecidableEq

/-- Outcome of one pass of the loop body: continue looping, break out
successfully with the accumulated set, or raise.  The state reached and
the scroll commands issued during the pass are carried along. -/
inductive StepResult
  | cont (s : ScrapeState) (cmds : List ScrollCmd)
  | done (result : Finset (String × String)) (s : ScrapeState) (cmds : List ScrollCmd)
  | fail (e : ScrapeErr) (s : ScrapeState) (cmds : List ScrollCmd)
deriving DecidableEq

/-- Tail of the loop body shared by both branches of the growth test:
`num_scrolls += 1; if num_scrolls > 3200: raise ...; num_tweets = len(full_tweets)`. -/
def finishStep (ft : Finset (String × String)) (bc : Nat) (s : ScrapeState)
    (cmds : List ScrollCmd) : StepResult :=
  if 3200 < s.num_scrolls + 1 then
    StepResult.fail .maxScrolls
      { full_tweets := ft, num_tweets := s.num_tweets, break_count := bc,
        num_scrolls := s.num_scrolls + 1 } cmds
  else
    StepResult.cont
      { full_tweets := ft, num_tweets := ft.card, break_count := bc,
        num_scrolls := s.num_scrolls + 1 } cmds

/-- One pass of the `while True` body of `scrape_full_page`, on the DOM
sample `b`: extract datetimes (`"a time"`, no scroll), extract tweet texts
(tweet selector, with anchored scroll), assert equal lengths, union the
zipped pairs into `full_tweets`, then run the stall / budget bookkeeping. -/
def scrapeStep (b : Batch) (s : ScrapeState) : StepResult :=
  match scrape_visible_data b.timeElems false false with
  | .error e => .fail e s []
  | .ok (datetimes, cmds1) =>
    match scrape_visible_data b.tweetElems true true with
    | .error e => .fail e s cmds1
    | .ok (tweets, cmds2) =>
      if tweets.length = datetimes.length then
        let ft := s.full_tweets ∪ (datetimes.zip tweets).toFinset
        if s.num_tweets = ft.card then
          if 3 ≤ s.break_count + 1 then
            StepResult.done ft
              { s with full_tweets := ft, break_count := s.break_count + 1 }
              (cmds1 ++ cmds2)
          else
            finishStep ft (s.break_count + 1) s (cmds1 ++ cmds2 ++ [ScrollCmd.toBottom])
        else
          finishStep ft 0 s (cmds1 ++ cmds2)
      else
        StepResult.fail .assertError s (cmds1 ++ cmds2)

/-- Initial locals of `scrape_full_page`:
`full_tweets = set(); num_tweets = 0; break_count = 0; num_scrolls = 0`. -/
def initState : ScrapeState :=
  { full_tweets := ∅, num_tweets := 0, break_count := 0, num_scrolls := 0 }

/-- The `while True` loop, fed by the list of successive DOM samples.
`none` means the sample list ran out before the loop decided (a live
browser always has a next sample, so this is only a model artifact). -/
def scrapeRun : List Batch → ScrapeState → Option (Except ScrapeErr (Finset (String × String)))
  | [], _ => none
  | b :: rest, s =>
    match scrapeStep b s with
    | .cont s2 _ => scrapeRun rest s2
    | .done r _ _ => some (.ok r)
    | .fail e _ _ => some (.error e)

/-- `TweetScraper.scrape_full_page`, as a function of the DOM samples the
loop will see. -/
def scrape_full_page (batches : List Batch) :
    Option (Except ScrapeErr (Finset (String × String))) :=
  scrapeRun batches initState

/-- The (timestamp, body) pairs one DOM sample contributes:
`zip(datetimes, tweets)`. -/
def batchPairs (b : Batch) : List (String × String) :=
  (b.timeElems.map Elem.attr_datetime).zip (b.tweetElems.map Elem.text)

/-- States the loop can actually be in: the initial state and anything a
completed (continuing) pass can produce. -/
inductive Reachable : ScrapeState → Prop
  | init : Reachable initState
  | step (b : Batch) (s s2 : ScrapeState) (cmds : List ScrollCmd) :
      Reachable s → scrapeStep b s = .cont s2 cmds → Reachable s2

/-! ## ScrapeOrchestrator: the day loop of `run_scraper` -/

/-- The exception classes that can escape the guarded block of the day
loop.  All of them derive from Python `Exception`; `TimeoutException`
additionally derives from `WebDriverException`. -/
inductive ExcType
  | timeoutExc
  | webDriverExc
  | maxScrollsExc
  | indexErrExc
  | assertErrExc
deriving DecidableEq

/-- Exception class raised for each `ScrapeErr` of the scroll loop:
the scroll budget raises a bare `Exception`, the other two raise
`IndexError` and `AssertionError`. -/
def excOfScrapeErr : ScrapeErr → ExcType
  | .indexError => .indexErrExc
  | .assertError => .assertErrExc
  | .maxScrolls => .maxScrollsExc

/-- `isinstance(e, TimeoutException)`. -/
def isTimeoutException : ExcType → Bool
  | .timeoutExc => true
  | _ => false

/-- `isinstance(e, WebDriverException)`: `TimeoutException` is a subclass
of `WebDriverException` in selenium. -/
def isWebDriverException : ExcType → Bool
  | .timeoutExc => true
  | .webDriverExc => true
  | _ => false

/-- `str(err)` for the modelled exceptions, as logged by the generic
handler. -/
def excMsg : ExcType → String
  | .timeoutExc => "timeout"
  | .webDriverExc => "webdriver error"
  | .maxScrollsExc => "MAXIMUM NUMBER OF SCROLLS REACHED"
  | .indexErrExc => "list index out of range"
  | .assertErrExc => "DIFFERENT NUMBER OF TWEETS AND DATETIMES"

/-- What one execution of the guarded (`try`) block of the day loop did:
produced the data of a day (navigation, wait and `scrape_full_page` all
succeeded), or raised an exception of the given class. -/
inductive DayOutcome
  | ok (data : List (String × String))
  | raise (e : ExcType)
deriving DecidableEq

/-- `TweetScraper.export_csv`, reified as the pair (path written, rows
written): a header row `datetime,tweet` followed by one row per element
of `data`, placed under `folder` when one is given. -/
def export_csv (filename : String) (data : List (String × String))
    (folder : Option String) : String × List (List String) :=
  let path := match folder with
    | some f => f ++ "/" ++ filename
    | none => filename
  (path, ["datetime", "tweet"] :: data.map (fun p => [p.1, p.2]))

/-- The per-day file name `f"{coin_abbrv}_tweets_{end_day}.csv"`. -/
def day_filename (coin_abbrv end_day : String) : String :=
  coin_abbrv ++ "_tweets_" ++ end_day ++ ".csv"

/-- The mutable locals of `run_scraper` plus its observable effects:
the day index `i`, the `err_counter`, the files written so far and the
lines appended to `errors.log`. -/
structure RunState where
  i : Nat
  err_counter : Nat
  exports : List (String × List (List String))
  log : List String
deriving DecidableEq

/-- How the day loop ended: fell through the `while` condition, broke out
on the error-counter threshold, or (model artifact) ran out of supplied
outcomes. -/
inductive RunEnd
  | completed
  | abortedErrCounter
  | starved
deriving DecidableEq

def initRunState : RunState :=
  { i := 0, err_counter := 0, exports := [], log := [] }

/-- The `while i < len(dates)-1` loop of `run_scraper`, driven by one
`DayOutcome` per iteration.  Exception dispatch follows the source order
`except TimeoutException` / `except WebDriverException` / `except
Exception`, with first-match semantics over the modelled class
hierarchy; every modelled class is an `Exception`, so the last handler
catches everything the first two declined. -/
def dayLoop (cfg : TweetScraper) (dates : List String) :
    List DayOutcome → RunState → RunEnd × RunState
  | [], st =>
    if st.i + 1 < dates.length then (.starved, st) else (.completed, st)
  | o :: rest, st =>
    if st.i + 1 < dates.length then
      let end_day := dates.getD (st.i + 1) ""
      let folder := some ("Tweets/" ++ cfg.coin_name)
      match o with
      | .ok data =>
        dayLoop cfg dates rest
          { st with
              i := st.i + 1,
              exports := st.exports ++
                [export_csv (day_filename cfg.coin_abbrv end_day) data folder] }
      | .raise e =>
        if isTimeoutException e then
          dayLoop cfg dates rest
            { st with
                i := st.i + 1,
                exports := st.exports ++
                  [export_csv (day_filename cfg.coin_abbrv end_day) [] folder],
                log := st.log ++ ["Timeout - " ++ end_day] }
        else if isWebDriverException e then
          if 5 ≤ st.err_counter + 1 then
            (.abortedErrCounter, { st with err_counter := st.err_counter + 1 })
          else
            dayLoop cfg dates rest { st with err_counter := st.err_counter + 1 }
        else
          dayLoop cfg dates rest
            { st with
                i := st.i + 1,
                log := st.log ++
                  ["End Date: " ++ end_day ++ ". Error: " ++ excMsg e] }
    else (.completed, st)

/-- `TweetScraper.run_scraper` without the browser bootstrap: iterate the
day loop over `date_rng(date_start, date_end)` from fresh locals. -/
def run_scraper (cfg : TweetScraper) (startOrd endOrd : Nat)
    (outs : List DayOutcome) : RunEnd × RunState :=
  dayLoop cfg (date_rng startOrd endOrd) outs initRunState

/-! ## Concrete fixtures used by witnesses and counterexamples -/

/-- The configuration of end-to-end scenario B. -/
def scenarioScraper : TweetScraper :=
  { coin_name := "Bitcoin", coin_abbrv := "BTC", min_faves := 0,
    min_retweets := 0, min_replies := 0, page := "top", language := "en" }

def scenarioURL : String :=
  query_string scenarioScraper "2022-01-01" "2022-01-02"

def elemT : Elem := { attr_datetime := "t", text := "", x := 0, y := 0 }

def elemX : Elem := { attr_datetime := "", text := "x", x := 3, y := 7 }

/-- A DOM sample rendering a single post. -/
def B1 : Batch := { timeElems := [elemT], tweetElems := [elemX] }

/-- The state after running one pass on `B1` from the initial state. -/
def s1 : ScrapeState :=
  { full_tweets := {("t", "x")}, num_tweets := 1, break_count := 0,
    num_scrolls := 1 }

def cs1 : List ScrollCmd := [ScrollCmd.anchored 3 7]

/-- A feed that renders the same single post forever (four samples are
enough for the loop to decide). -/
def feed1 : List Batch := List.replicate 4 B1

/-- A DOM sample whose two queries disagree: two timestamp elements but
one tweet container. -/
def mismatchBatch : Batch :=
  { timeElems := [elemT, elemT], tweetElems := [elemX] }

/-- A DOM sample in which the tweet-container selector matches nothing. -/
def emptyBatch : Batch := { timeElems := [elemT], tweetElems := [] }

def wdFault : DayOutcome := DayOutcome.raise ExcType.webDriverExc

def okDay : DayOutcome := DayOutcome.ok []

def isWdFault : DayOutcome → Bool
  | .raise e => isWebDriverException e
  | .ok _ => false

def cexDates : List String := ["d0", "d1", "d2", "d3", "d4", "d5"]

/-- Five session faults, each separated from the next by a successfully
completed day. -/
def cexOuts : List DayOutcome :=
  [wdFault, okDay, wdFault, okDay, wdFault, okDay, wdFault, okDay, wdFault]

def c4Dates : List String := ["a", "b", "c"]

/-- Day one exhausts the scroll budget; day two succeeds with one post. -/
def c4Outs : List DayOutcome :=
  [DayOutcome.raise (excOfScrapeErr ScrapeErr.maxScrolls),
   DayOutcome.ok [("t", "x")]]

/-! ## Helper lemmas about one scroll-loop pass -/

theorem scrapeStep_unfold (b : Batch) (s : ScrapeState) :
    scrapeStep b s =
      match b.tweetElems.getLast? with
      | none => StepResult.fail .indexError s []
      | some last =>
        if (b.tweetElems.map Elem.text).length = (b.timeElems.map Elem.attr_datetime).length then
          if s.num_tweets = (s.full_tweets ∪ (batchPairs b).toFinset).card then
            if 3 ≤ s.break_count + 1 then
              StepResult.done (s.full_tweets ∪ (batchPairs b).toFinset)
                { s with
                    full_tweets := s.full_tweets ∪ (batchPairs b).toFinset,
                    break_count := s.break_count + 1 }
                [ScrollCmd.anchored last.x last.y]
            else
              finishStep (s.full_tweets ∪ (batchPairs b).toFinset) (s.break_count + 1) s
                [ScrollCmd.anchored last.x last.y, ScrollCmd.toBottom]
          else
            finishStep (s.full_tweets ∪ (batchPairs b).toFinset) 0 s
              [ScrollCmd.anchored last.x last.y]
        else StepResult.fail .assertError s [ScrollCmd.anchored last.x last.y] := by
  cases h : b.tweetElems.getLast? with
  | none => simp [scrapeStep, scrape_visible_data, h, batchPairs]
  | some last => simp [scrapeStep, scrape_visible_data, h, batchPairs]

/-- Everything a continuing pass guarantees about the state it reaches
and the scroll commands it issued. -/
theorem cont_cases (b : Batch) (s s2 : ScrapeState) (cmds : List ScrollCmd)
    (h : scrapeStep b s = .cont s2 cmds) :
    ∃ last, b.tweetElems.getLast? = some last ∧
      s2.full_tweets = s.full_tweets ∪ (batchPairs b).toFinset ∧
      s2.num_tweets = s2.full_tweets.card ∧
      s2.num_scrolls = s.num_scrolls + 1 ∧ s.num_scrolls + 1 ≤ 3200 ∧
      ((s.num_tweets = (s.full_tweets ∪ (batchPairs b).toFinset).card ∧
          s2.break_count = s.break_count + 1 ∧ s.break_count + 1 ≤ 2 ∧
          cmds = [ScrollCmd.anchored last.x last.y, ScrollCmd.toBottom]) ∨
       (s.num_tweets ≠ (s.full_tweets ∪ (batchPairs b).toFinset).card ∧
          s2.break_count = 0 ∧
          cmds = [ScrollCmd.anchored last.x last.y])) := by
  rw [scrapeStep_unfold] at h
  rcases hl : b.tweetElems.getLast? with _ | last <;> rw [hl] at h <;> dsimp only at h
  · cases h
  · refine ⟨last, rfl, ?_⟩
    by_cases hlen :
        (b.tweetElems.map Elem.text).length = (b.timeElems.map Elem.attr_datetime).length
    · rw [if_pos hlen] at h
      by_cases hng : s.num_tweets = (s.full_tweets ∪ (batchPairs b).toFinset).card
      · rw [if_pos hng] at h
        by_cases hbc : 3 ≤ s.break_count + 1
        · rw [if_pos hbc] at h; cases h
        · rw [if_neg hbc] at h
          rw [finishStep] at h
          by_cases hns : 3200 < s.num_scrolls + 1
          · rw [if_pos hns] at h; cases h
          · rw [if_neg hns] at h
            cases h
            refine ⟨rfl, rfl, rfl, by omega, Or.inl ⟨hng, rfl, by omega, rfl⟩⟩
      · rw [if_neg hng] at h
        rw [finishStep] at h
        by_cases hns : 3200 < s.num_scrolls + 1
        · rw [if_pos hns] at h; cases h
        · rw [if_neg hns] at h
          cases h
          refine ⟨rfl, rfl, rfl, by omega, Or.inr ⟨hng, rfl, rfl⟩⟩
    · rw [if_neg hlen] at h; cases h

/-- Everything a successfully terminating pass guarantees. -/
theorem done_cases (b : Batch) (s s2 : ScrapeState) (r : Finset (String × String))
    (cmds : List ScrollCmd)
    (h : scrapeStep b s = .done r s2 cmds) :
    ∃ last, b.tweetElems.getLast? = some last ∧
      r = s.full_tweets ∪ (batchPairs b).toFinset ∧
      s2.full_tweets = r ∧ s.num_tweets = r.card ∧
      s2.break_count = s.break_count + 1 ∧ 3 ≤ s.break_count + 1 ∧
      cmds = [ScrollCmd.anchored last.x last.y] := by
  rw [scrapeStep_unfold] at h
  rcases hl : b.tweetElems.getLast? with _ | last <;> rw [hl] at h <;> dsimp only at h
  · cases h
  · refine ⟨last, rfl, ?_⟩
    by_cases hlen :
        (b.tweetElems.map Elem.text).length = (b.timeElems.map Elem.attr_datetime).length
    · rw [if_pos hlen] at h
      by_cases hng : s.num_tweets = (s.full_tweets ∪ (batchPairs b).toFinset).card
      · rw [if_pos hng] at h
        by_cases hbc : 3 ≤ s.break_count + 1
        · rw [if_pos hbc] at h
          cases h
          exact ⟨rfl, rfl, hng, rfl, hbc, rfl⟩
        · rw [if_neg hbc] at h
          rw [finishStep] at h
          by_cases hns : 3200 < s.num_scrolls + 1
          · rw [if_pos hns] at h; cases h
          · rw [if_neg hns] at h; cases h
      · rw [if_neg hng] at h
        rw [finishStep] at h
        by_cases hns : 3200 < s.num_scrolls + 1
        · rw [if_pos hns] at h; cases h
        · rw [if_neg hns] at h; cases h
    · rw [if_neg hlen] at h; cases h

/-- Invariant of the loop: `num_tweets` mirrors the accumulated size and
the stall counter never survives a pass at 3 or more. -/
theorem reachable_inv (s : ScrapeState) (hs : Reachable s) :
    s.num_tweets = s.full_tweets.card ∧ s.break_count ≤ 2 := by
  induction hs with
  | init => simp [initState]
  | step b s s2 cmds _ heq _ =>
    obtain ⟨last, _, _, hnt, _, _, hor⟩ := cont_cases b s s2 cmds heq
    rcases hor with ⟨_, hbc, hle, _⟩ | ⟨_, hbc, _⟩
    · exact ⟨hnt, by omega⟩
    · exact ⟨hnt, by omega⟩

/-- A successful run returns the initial accumulation united with all
pairs of some consumed prefix of the sample feed. -/
theorem scrapeRun_ok (batches : List Batch) :
    ∀ (s : ScrapeState) (r : Finset (String × String)),
      scrapeRun batches s = some (.ok r) →
      ∃ n, n ≤ batches.length ∧
        r = s.full_tweets ∪ ((batches.take n).flatMap batchPairs).toFinset := by
  induction batches with
  | nil => intro s r h; simp [scrapeRun] at h
  | cons b rest ih =>
    intro s r h
    rw [scrapeRun] at h
    rcases hstep : scrapeStep b s with ⟨s2, cmds⟩ | ⟨r2, s2, cmds⟩ | ⟨e, s2, cmds⟩ <;>
      rw [hstep] at h <;> dsimp only at h
    · obtain ⟨n, hn, hr⟩ := ih s2 r h
      obtain ⟨last, _, hft, _⟩ := cont_cases b s s2 cmds hstep
      refine ⟨n + 1, by simpa using hn, ?_⟩
      rw [hr, hft]
      simp [List.toFinset_append, Finset.union_assoc]
    · obtain ⟨last, _, hr2, _⟩ := done_cases b s s2 r2 cmds hstep
      refine ⟨1, by simp, ?_⟩
      have : r = r2 := by
        have hh := h
        simp at hh
        exact hh.symm
      rw [this, hr2]
      simp
    · simp at h

/-! ## Claims -/

/-- Claim C1: along any run of the scroll loop, the stall counter
`break_count` resets to 0 on any pass that grows the accumulated set,
increments on any pass that does not grow it, and the loop breaks out
successfully exactly when the counter reaches 3: a continuing pass always
leaves the counter at 2 or below, and a successful break happens
precisely on a non-growing pass entered with the counter at 2, i.e.
after exactly 3 consecutive non-growing passes and never earlier. -/
theorem claim_stall_counter (b : Batch) (s : ScrapeState) (hs : Reachable s) :
    (∀ s2 cmds, scrapeStep b s = .cont s2 cmds →
        (s.full_tweets.card < s2.full_tweets.card → s2.break_count = 0) ∧
        (s2.full_tweets.card = s.full_tweets.card →
          s2.break_count = s.break_count + 1) ∧
        s2.break_count ≤ 2) ∧
    (∀ r s2 cmds, scrapeStep b s = .done r s2 cmds →
        s2.full_tweets.card = s.full_tweets.card ∧
        s.break_count = 2 ∧ s2.break_count = 3) := by
  obtain ⟨hnt, hbc2⟩ := reachable_inv s hs
  constructor
  · intro s2 cmds h
    obtain ⟨last, _, hft, _, _, _, hor⟩ := cont_cases b s s2 cmds h
    rcases hor with ⟨hng, hbc, hle, _⟩ | ⟨hng, hbc, _⟩
    · have hcard : s2.full_tweets.card = s.full_tweets.card := by
        rw [hft]; omega
      refine ⟨fun hlt => by omega, fun _ => hbc, by omega⟩
    · have hcard : s.full_tweets.card < s2.full_tweets.card := by
        rw [hft]
        have hsub : s.full_tweets ⊆ s.full_tweets ∪ (batchPairs b).toFinset :=
          Finset.subset_union_left
        have hle2 := Finset.card_le_card hsub
        omega
      refine ⟨fun _ => hbc, fun heq => by omega, by omega⟩
  · intro r s2 cmds h
    obtain ⟨last, _, hr, hs2ft, hntr, hbc, h3, _⟩ := done_cases b s s2 r cmds h
    have hcard : s2.full_tweets.card = s.full_tweets.card := by
      rw [hs2ft]; omega
    exact ⟨hcard, by omega, by omega⟩

theorem claim_stall_counter_witness : s1.break_count = 0 :=
  ((claim_stall_counter B1 initState Reachable.init).1 s1 cs1 (by decide)).1
    (by decide)

/-- Claim C5: a continuing pass that grew the accumulated set issues
exactly one scroll command, the anchored scroll to the (x, y) location of
the last extracted post element, and in particular no scroll-to-bottom;
a continuing (hence non-terminating) pass that did not grow the set
issues a scroll-to-bottom command. -/
theorem claim_scroll_commands (b : Batch) (s : ScrapeState) (hs : Reachable s) :
    ∀ s2 cmds, scrapeStep b s = .cont s2 cmds →
      (s.full_tweets.card < s2.full_tweets.card →
        ∃ last, b.tweetElems.getLast? = some last ∧
          cmds = [ScrollCmd.anchored last.x last.y] ∧
          ScrollCmd.toBottom ∉ cmds) ∧
      (s2.full_tweets.card = s.full_tweets.card →
        ScrollCmd.toBottom ∈ cmds) := by
  obtain ⟨hnt, _⟩ := reachable_inv s hs
  intro s2 cmds h
  obtain ⟨last, hl, hft, _, _, _, hor⟩ := cont_cases b s s2 cmds h
  rcases hor with ⟨hng, _, _, hcmds⟩ | ⟨hng, _, hcmds⟩
  · have hcard : s2.full_tweets.card = s.full_tweets.card := by
      rw [hft]; omega
    refine ⟨fun hlt => by omega, fun _ => by simp [hcmds]⟩
  · have hcard : s.full_tweets.card < s2.full_tweets.card := by
      rw [hft]
      have hsub : s.full_tweets ⊆ s.full_tweets ∪ (batchPairs b).toFinset :=
        Finset.subset_union_left
      have hle2 := Finset.card_le_card hsub
      omega
    refine ⟨fun _ => ⟨last, hl, hcmds, by simp [hcmds]⟩, fun heq => by omega⟩

theorem claim_scroll_commands_witness :
    ∃ last, B1.tweetElems.getLast? = some last ∧
      cs1 = [ScrollCmd.anchored last.x last.y] ∧
      ScrollCmd.toBottom ∉ cs1 :=
  ((claim_scroll_commands B1 initState Reachable.init) s1 cs1 (by decide)).1
    (by decide)

/-- Claim C2: on successful termination the returned accumulated set is
exactly the set of distinct (timestamp, body) pairs of the samples the
loop consumed: it equals the `toFinset` of the concatenation of all
zipped batch pairs, and its size is the number of distinct pairs (the
length after `dedup`), never more; pairs equal on both fields are merged. -/
theorem claim_dedup_accumulation (batches : List Batch)
    (r : Finset (String × String))
    (h : scrape_full_page batches = some (.ok r)) :
    ∃ n, n ≤ batches.length ∧
      r = ((batches.take n).flatMap batchPairs).toFinset ∧
      r.card = ((batches.take n).flatMap batchPairs).dedup.length := by
  obtain ⟨n, hn, hr⟩ := scrapeRun_ok batches initState r h
  have hr2 : r = ((batches.take n).flatMap batchPairs).toFinset := by
    simpa [initState] using hr
  refine ⟨n, hn, hr2, ?_⟩
  rw [hr2, List.card_toFinset]

theorem claim_dedup_accumulation_witness :
    ∃ n, n ≤ feed1.length ∧
      ({("t", "x")} : Finset (String × String)) =
        ((feed1.take n).flatMap batchPairs).toFinset ∧
      ({("t", "x")} : Finset (String × String)).card =
        ((feed1.take n).flatMap batchPairs).dedup.length :=
  claim_dedup_accumulation feed1 {("t", "x")} (by decide)

/-- Claim C3: a pass in which both extraction queries return and the two
extracted sequences have unequal lengths raises the assertion
(extraction-consistency) error, and the state it fails in is the entry
state: the accumulated set is untouched, no partial union of the
mismatched sequences happens. -/
theorem claim_assert_mismatch (b : Batch) (s : ScrapeState)
    (dts tws : List String) (c1 c2 : List ScrollCmd)
    (h1 : scrape_visible_data b.timeElems false false = .ok (dts, c1))
    (h2 : scrape_visible_data b.tweetElems true true = .ok (tws, c2))
    (hne : tws.length ≠ dts.length) :
    scrapeStep b s = .fail .assertError s (c1 ++ c2) := by
  unfold scrapeStep
  rw [h1]
  dsimp only
  rw [h2]
  dsimp only
  rw [if_neg hne]

theorem claim_assert_mismatch_witness :
    scrapeStep mismatchBatch initState =
      .fail .assertError initState ([] ++ [ScrollCmd.anchored 3 7]) :=
  claim_assert_mismatch mismatchBatch initState ["t", "t"] ["x"] []
    [ScrollCmd.anchored 3 7] (by decide) (by decide) (by decide)

/-- Claim C10: `scrape_visible_data` called with `scroll = true` on an
empty element list raises `IndexError` (from `web_elems[-1]`) instead of
returning the empty list, and a pass whose tweet selector matches
nothing therefore fails with that error in the unchanged entry state
rather than being counted as a stall. -/
theorem claim_empty_selector :
    scrape_visible_data [] true true = Except.error ScrapeErr.indexError ∧
    ∀ b s, b.tweetElems = [] →
      scrapeStep b s = .fail .indexError s [] := by
  constructor
  · rfl
  · intro b s hb
    rw [scrapeStep_unfold, hb]
    rfl

theorem claim_empty_selector_witness :
    scrapeStep emptyBatch initState = .fail .indexError initState [] :=
  claim_empty_selector.2 emptyBatch initState rfl

/-- Claim C4 counterexample: in a concrete run whose first day raises the
scroll-budget `Exception`, the run does NOT abort: the generic
`except Exception` handler catches it, the next day is processed and
exported, and the loop completes — refuting that the error escapes the
per-day exception handling and that no further days are processed. -/
theorem claim_scroll_budget_cex :
    (dayLoop scenarioScraper c4Dates c4Outs initRunState).1 =
      RunEnd.completed ∧
    (dayLoop scenarioScraper c4Dates c4Outs initRunState).2.exports =
      [("Tweets/Bitcoin/BTC_tweets_c.csv",
        [["datetime", "tweet"], ["t", "x"]])] ∧
    (dayLoop scenarioScraper c4Dates c4Outs initRunState).2.i = 2 := by
  decide

/-- Claim C4 (amended): if the scroll counter would exceed 3200 the pass
aborts with the fatal scroll-budget error — no pass continues past 3200
scrolls, and a growing pass at the budget limit fails with `maxScrolls` —
but that error is a plain `Exception`, which IS one of the exception
types caught by the per-day handling of the orchestrator: the generic handler
logs it, skips the day without an export, and the run advances to the
next day instead of aborting. -/
theorem claim_scroll_budget_amended :
    (∀ b s s2 cmds, scrapeStep b s = .cont s2 cmds → s2.num_scrolls ≤ 3200) ∧
    (∀ b s, b.tweetElems ≠ [] →
        (b.tweetElems.map Elem.text).length =
          (b.timeElems.map Elem.attr_datetime).length →
        s.num_tweets ≠ (s.full_tweets ∪ (batchPairs b).toFinset).card →
        3200 ≤ s.num_scrolls →
        ∃ s2 cmds, scrapeStep b s = .fail .maxScrolls s2 cmds) ∧
    (∀ cfg dates rest st, st.i + 1 < dates.length →
        dayLoop cfg dates
            (DayOutcome.raise (excOfScrapeErr ScrapeErr.maxScrolls) :: rest) st =
          dayLoop cfg dates rest
            { st with
                i := st.i + 1,
                log := st.log ++
                  ["End Date: " ++ dates.getD (st.i + 1) "" ++ ". Error: " ++
                    excMsg (excOfScrapeErr ScrapeErr.maxScrolls)] }) := by
  refine ⟨?_, ?_, ?_⟩
  · intro b s s2 cmds h
    obtain ⟨last, _, _, _, hns, hle, _⟩ := cont_cases b s s2 cmds h
    omega
  · intro b s hb hlen hng hns
    rcases hl : b.tweetElems.getLast? with _ | last
    · exact absurd (List.getLast?_eq_none_iff.mp hl) hb
    · rw [scrapeStep_unfold, hl]
      dsimp only
      rw [if_pos hlen, if_neg hng]
      rw [finishStep, if_pos (by omega)]
      exact ⟨_, _, rfl⟩
  · intro cfg dates rest st h
    simp [dayLoop, h, isTimeoutException, isWebDriverException, excOfScrapeErr]

theorem claim_scroll_budget_amended_witness : s1.num_scrolls ≤ 3200 :=
  claim_scroll_budget_amended.1 B1 initState s1 cs1 (by decide)

/-- Claim C6 counterexample: a concrete run with five session-level
faults, each separated from the next by a successfully completed and
exported day (no two faults are consecutive), still aborts on the error
counter — refuting that faults separated by a successful day do not
accumulate toward the limit of 5. -/
theorem claim_err_counter_cex :
    (dayLoop scenarioScraper cexDates cexOuts initRunState).1 =
      RunEnd.abortedErrCounter ∧
    (cexOuts.zip cexOuts.tail).all
      (fun p => !(isWdFault p.1 && isWdFault p.2)) = true ∧
    (dayLoop scenarioScraper cexDates cexOuts initRunState).2.exports.length
      = 4 := by
  decide

/-- Claim C6 (amended): the session-fault counter of the orchestrator counts
session-level faults cumulatively over the whole run: each fault
increments it and retries the same day without advancing, the run aborts
when it reaches 5, and no path ever resets it — a successfully completed
day leaves the counter unchanged, so non-consecutive faults still
accumulate toward the limit. -/
theorem claim_err_counter_amended (cfg : TweetScraper) (dates : List String)
    (rest : List DayOutcome) (st : RunState) (h : st.i + 1 < dates.length) :
    (st.err_counter + 1 < 5 →
        dayLoop cfg dates (DayOutcome.raise ExcType.webDriverExc :: rest) st =
          dayLoop cfg dates rest { st with err_counter := st.err_counter + 1 }) ∧
    (5 ≤ st.err_counter + 1 →
        dayLoop cfg dates (DayOutcome.raise ExcType.webDriverExc :: rest) st =
          (RunEnd.abortedErrCounter,
            { st with err_counter := st.err_counter + 1 })) ∧
    (∀ data, dayLoop cfg dates (DayOutcome.ok data :: rest) st =
        dayLoop cfg dates rest
          { st with
              i := st.i + 1,
              exports := st.exports ++
                [export_csv (day_filename cfg.coin_abbrv (dates.getD (st.i + 1) ""))
                  data (some ("Tweets/" ++ cfg.coin_name))] }) := by
  refine ⟨?_, ?_, ?_⟩
  · intro hlt
    simp [dayLoop, h, isTimeoutException, isWebDriverException,
      if_neg (by omega : ¬ 5 ≤ st.err_counter + 1)]
    intro hc
    exact absurd hc (by omega)
  · intro hge
    simp [dayLoop, h, isTimeoutException, isWebDriverException, if_pos hge]
    intro hc
    exact absurd hc (by omega)
  · intro data
    simp [dayLoop, h]

theorem claim_err_counter_amended_witness :
    dayLoop scenarioScraper cexDates
        [DayOutcome.raise ExcType.webDriverExc] initRunState =
      dayLoop scenarioScraper cexDates []
        { initRunState with err_counter := initRunState.err_counter + 1 } :=
  (claim_err_counter_amended scenarioScraper cexDates [] initRunState
    (by decide)).1 (by decide)

/-- Claim C7: a day whose wait for the first timestamp element times out
is treated as having zero posts: a file holding only the header row
`datetime,tweet` is exported for that day, the timeout is logged, and
the loop advances to the next day without aborting the run. -/
theorem claim_timeout_day (cfg : TweetScraper) (dates : List String)
    (rest : List DayOutcome) (st : RunState) (h : st.i + 1 < dates.length) :
    export_csv (day_filename cfg.coin_abbrv (dates.getD (st.i + 1) "")) []
        (some ("Tweets/" ++ cfg.coin_name)) =
      ("Tweets/" ++ cfg.coin_name ++ "/" ++
        day_filename cfg.coin_abbrv (dates.getD (st.i + 1) ""),
       [["datetime", "tweet"]]) ∧
    dayLoop cfg dates (DayOutcome.raise ExcType.timeoutExc :: rest) st =
      dayLoop cfg dates rest
        { st with
            i := st.i + 1,
            exports := st.exports ++
              [export_csv (day_filename cfg.coin_abbrv (dates.getD (st.i + 1) ""))
                [] (some ("Tweets/" ++ cfg.coin_name))],
            log := st.log ++ ["Timeout - " ++ dates.getD (st.i + 1) ""] } := by
  constructor
  · rfl
  · simp [dayLoop, h, isTimeoutException]

theorem claim_timeout_day_witness :
    dayLoop scenarioScraper c4Dates [DayOutcome.raise ExcType.timeoutExc]
        initRunState =
      dayLoop scenarioScraper c4Dates []
        { initRunState with
            i := initRunState.i + 1,
            exports := initRunState.exports ++
              [export_csv (day_filename scenarioScraper.coin_abbrv
                (c4Dates.getD (initRunState.i + 1) ""))
                [] (some ("Tweets/" ++ scenarioScraper.coin_name))],
            log := initRunState.log ++
              ["Timeout - " ++ c4Dates.getD (initRunState.i + 1) ""] } :=
  (claim_timeout_day scenarioScraper c4Dates [] initRunState (by decide)).2

/-- Claim C8: for start ≤ end, `date_rng` returns a sequence of length
(end − start in days) + 1 whose element `i` is the formatted date exactly
`i` calendar days after the start — so it begins at the start date, ends
at the end date, and increases by exactly one day per element — and in
particular the range from 2022-01-01 to 2022-01-03 is the three-element
list of those ISO dates. -/
theorem claim_date_rng (s e : Nat) (h : s ≤ e) :
    (date_rng s e).length = e - s + 1 ∧
    (date_rng s e).head? = some (strftimeDate s) ∧
    (date_rng s e).getLast? = some (strftimeDate e) ∧
    (∀ i, i ≤ e - s → (date_rng s e)[i]? = some (strftimeDate (s + i))) ∧
    date_rng (ymd2ord 2022 1 1) (ymd2ord 2022 1 3) =
      ["2022-01-01", "2022-01-02", "2022-01-03"] := by
  have hn : ((e : Int) - (s : Int) + 1).toNat = e - s + 1 := by omega
  have hlen : (date_rng s e).length = e - s + 1 := by
    simp [date_rng, hn]
  have hget : ∀ i, i ≤ e - s → (date_rng s e)[i]? = some (strftimeDate (s + i)) := by
    intro i hi
    simp [date_rng, hn, List.getElem?_range (by omega : i < e - s + 1)]
  refine ⟨hlen, ?_, ?_, hget, by decide⟩
  · rw [List.head?_eq_getElem?]
    simpa using hget 0 (by omega)
  · rw [List.getLast?_eq_getElem?, hlen]
    have hlast := hget (e - s) (le_refl _)
    simpa [Nat.add_sub_cancel' h] using hlast

theorem claim_date_rng_witness :
    (date_rng (ymd2ord 2022 1 1) (ymd2ord 2022 1 3)).length =
      ymd2ord 2022 1 3 - ymd2ord 2022 1 1 + 1 :=
  (claim_date_rng (ymd2ord 2022 1 1) (ymd2ord 2022 1 3) (by decide)).1

/-- Claim C9: `query_string` is pure and deterministic — equal inputs
yield the identical URL — and on the scenario-B inputs (keywords
Bitcoin/BTC, all thresholds 0, language en, mode top, since 2022-01-01,
until 2022-01-02) the produced URL contains each of the expected
percent-encoded query terms. -/
theorem claim_query_string :
    (∀ (a b : TweetScraper) (ds1 ds2 du1 du2 : String),
        a = b → ds1 = ds2 → du1 = du2 →
        query_string a ds1 du1 = query_string b ds2 du2) ∧
    strContains scenarioURL "min_replies%3A0" = true ∧
    strContains scenarioURL "min_faves%3A0" = true ∧
    strContains scenarioURL "min_retweets%3A0" = true ∧
    strContains scenarioURL "lang%3Aen" = true ∧
    strContains scenarioURL "until%3A2022-01-02" = true ∧
    strContains scenarioURL "since%3A2022-01-01" = true ∧
    strContains scenarioURL "f=top" = true := by
  constructor
  · intro a b ds1 ds2 du1 du2 h1 h2 h3
    rw [h1, h2, h3]
  · exact ⟨by decide, by decide, by decide, by decide, by decide, by decide,
      by decide⟩

theorem claim_query_string_witness :
    query_string scenarioScraper "2022-01-01" "2022-01-02" =
      query_string scenarioScraper "2022-01-01" "2022-01-02" :=
  claim_query_string.1 scenarioScraper scenarioScraper
    "2022-01-01" "2022-01-01" "2022-01-02" "2022-01-02" rfl rfl rfl
